import Mathlib

/-!
Shallow embedding of the bulk product importer repository
(`dbase.py`, `uploader.py`, and the read-side decoding in `app.py` /
`products.py`) together with proofs of the specified properties.

Conventions of the embedding:
* Python values occurring in product records are modelled by the inductive
  type `Value`.  Python `int` and `float` take the same branch of every
  piece of code in the repository (`isinstance(value, (int, float))`), so a
  single numeric constructor `VInt` is used; no claim depends on
  floating-point formatting.  `VOther` stands for any Python object of a
  type not otherwise handled; the string it carries is, by definition, the
  result of Python `str()` on that object.
* A Python `dict` is modelled as an association list whose keys are unique
  in the programs considered; insertion order is preserved, and assignment
  to an existing key replaces the value in place, as in Python.
* Filesystem existence (`os.path.exists`), store outcomes
  (`put_item` / `upload_file` succeeding or raising `ClientError`) and the
  per-iteration clock (`datetime.utcnow().isoformat()`) are oracles
  supplied in an `Env`; the importer only branches on their results.
-/

/-- Python runtime values appearing as product-record fields. -/
inductive Value where
  | VStr (s : String)
  | VInt (n : Int)
  | VBool (b : Bool)
  | VList (xs : List Value)
  | VDict (kvs : List (String × Value))
  | VNone
  | VOther (s : String)

/-- A product record: a Python dict from field name to value. -/
abbrev Record := List (String × Value)

/-- Python `d.get(k)`: first binding of `k`, if any. -/
def pyGet (r : Record) (k : String) : Option Value :=
  match r with
  | [] => none
  | (k0, v0) :: rest => if k0 = k then some v0 else pyGet rest k

/-- Python `d.get(k, dflt)`. -/
def pyGetD (r : Record) (k : String) (dflt : Value) : Value :=
  (pyGet r k).getD dflt

/-- Python `k in d`. -/
def pyContains (r : Record) (k : String) : Bool :=
  (pyGet r k).isSome

/-- Python `d[k] = v`: replace in place if the key exists, else append. -/
def pySet (r : Record) (k : String) (v : Value) : Record :=
  match r with
  | [] => [(k, v)]
  | (k0, v0) :: rest => if k0 = k then (k, v) :: rest else (k0, v0) :: pySet rest k v

/-- Python `str()` on a Bool: `True` / `False`. -/
def pyStrBool (b : Bool) : String :=
  if b then "True" else "False"

mutual
/-- Python `repr()` on a `Value` (used by `str()` on containers).  String
quoting is modelled without escape handling, which no claim exercises. -/
def pyRepr : Value → String
  | .VStr s => "\x27" ++ s ++ "\x27"
  | .VInt n => toString n
  | .VBool b => pyStrBool b
  | .VList xs => "[" ++ pyReprList xs ++ "]"
  | .VDict kvs => "\x7b" ++ pyReprKVs kvs ++ "\x7d"
  | .VNone => "None"
  | .VOther s => s

def pyReprList : List Value → String
  | [] => ""
  | [v] => pyRepr v
  | v :: rest => pyRepr v ++ ", " ++ pyReprList rest

def pyReprKVs : List (String × Value) → String
  | [] => ""
  | [(k, v)] => "\x27" ++ k ++ "\x27: " ++ pyRepr v
  | (k, v) :: rest => "\x27" ++ k ++ "\x27: " ++ pyRepr v ++ ", " ++ pyReprKVs rest
end

/-- Python `str()` on a `Value` (as used by f-string interpolation). -/
def pyStr : Value → String
  | .VStr s => s
  | v => pyRepr v

/-- Python truthiness (`if not x`). -/
def pyTruthy : Value → Bool
  | .VStr s => !s.isEmpty
  | .VInt n => n != 0
  | .VBool b => b
  | .VList xs => !xs.isEmpty
  | .VDict kvs => !kvs.isEmpty
  | .VNone => false
  | .VOther _ => true

/-- DynamoDB tagged attribute values: the wire format written by
`Dbase.add_item` (`dbase.py`).  `NULL` stands for the dict
`\x7b"NULL": True\x7d`. -/
inductive Attr where
  | S (s : String)
  | N (s : String)
  | BOOL (b : Bool)
  | L (xs : List Attr)
  | M (kvs : List (String × Attr))
  | NULL

mutual
/-- `Dbase.add_item.convert_to_dynamodb_format` (`dbase.py` lines 103-117).
The branches are tested in source order with `isinstance`.  In Python,
`bool` is a subclass of `int`, so `isinstance(value, (int, float))` is true
for booleans: a boolean reaches the numeric branch and is encoded as
`N (str(value))`, and the `BOOL` branch of the source is unreachable. -/
def convert_to_dynamodb_format : Value → Attr
  | .VStr s => .S s
  | .VInt n => .N (toString n)
  | .VBool b => .N (pyStrBool b)
  | .VList xs => .L (convertList xs)
  | .VDict kvs => .M (convertKVs kvs)
  | .VNone => .NULL
  | .VOther s => .S s

def convertList : List Value → List Attr
  | [] => []
  | v :: vs => convert_to_dynamodb_format v :: convertList vs

def convertKVs : List (String × Value) → List (String × Attr)
  | [] => []
  | (k, v) :: kvs => (k, convert_to_dynamodb_format v) :: convertKVs kvs
end

/-- The wire form of a whole record (`dbase.py` line 120). -/
def convertRecord (r : Record) : List (String × Attr) :=
  convertKVs r

mutual
/-- A tagged attribute value viewed again as a plain Python value: the dict
`\x7btag: payload\x7d` itself.  Used for the payloads of `L` and `M`, which
the read side does not decode recursively. -/
def attrAsValue : Attr → Value
  | .S s => .VDict [("S", .VStr s)]
  | .N s => .VDict [("N", .VStr s)]
  | .BOOL b => .VDict [("BOOL", .VBool b)]
  | .L xs => .VDict [("L", .VList (attrAsValueList xs))]
  | .M kvs => .VDict [("M", .VDict (attrAsValueKVs kvs))]
  | .NULL => .VDict [("NULL", .VBool true)]

def attrAsValueList : List Attr → List Value
  | [] => []
  | a :: as0 => attrAsValue a :: attrAsValueList as0

def attrAsValueKVs : List (String × Attr) → List (String × Value)
  | [] => []
  | (k, a) :: kvs => (k, attrAsValue a) :: attrAsValueKVs kvs
end

/-- The read-side decoding `v.get(list(v.keys())[0])` applied to one tagged
attribute (`app.py` line 48, `products.py` line 175): the payload under the
single type tag, with no recursive decoding and no parsing of `N`. -/
def decode_attr : Attr → Value
  | .S s => .VStr s
  | .N s => .VStr s
  | .BOOL b => .VBool b
  | .L xs => .VList (attrAsValueList xs)
  | .M kvs => .VDict (attrAsValueKVs kvs)
  | .NULL => .VBool true

/-- The read-side decoding of a whole stored item. -/
def decodeRecord (item : List (String × Attr)) : Record :=
  item.map (fun kv => (kv.1, decode_attr kv.2))

/-- The pagination slice of `bulk_upload_products` (`uploader.py` lines
146-150): `end_index = min(start + count, len(products))` (or
`len(products)` when `count` is `None`), then `products[start:end_index]`.
Python slicing with a nonnegative start is `drop start` then
`take (end - start)`. -/
def selectWindow {α : Type} (products : List α) (start : Nat) (count : Option Nat) : List α :=
  let end_index :=
    match count with
    | some c => start + c
    | none => products.length
  let end_index := min end_index products.length
  (products.drop start).take (end_index - start)

/-- `os.path.join(a, b)` for POSIX paths: an absolute second component
replaces the first, otherwise a separator is inserted unless `a` is empty
or already ends in one. -/
def osJoin2 (a b : String) : String :=
  if b.startsWith "/" then b
  else if a = "" || a.endsWith "/" then a ++ b
  else a ++ "/" ++ b

/-- `os.path.join(a, b, c)`. -/
def osJoin3 (a b c : String) : String :=
  osJoin2 (osJoin2 a b) c

/-- The default image filename of `DataUploader.get_image_path` and of the
in-memory substitution at `uploader.py` line 175. -/
def default_image : String := "product_image_coming_soon.png"

/-- `DataUploader.get_image_path` (`uploader.py` lines 102-121), with the
filesystem existence check `os.path.exists` supplied as the oracle `fs`.
`none` models the `TypeError` that `os.path.join` raises when the image or
category field holds a non-string value; in `bulk_upload_products` that
exception reaches the blanket handler and terminates the run. -/
def get_image_path (product : Record) (base_image_path : String) (d : String)
    (fs : String → Bool) : Option (String × Bool) :=
  if pyContains product "image" = false then
    some (osJoin2 base_image_path d, true)
  else
    match pyGetD product "category" (.VStr "uncategorized"), pyGet product "image" with
    | .VStr category, some (.VStr image) =>
      let image_file_path := osJoin3 base_image_path category image
      if fs image_file_path = false then
        some (osJoin2 base_image_path d, true)
      else
        some (image_file_path, false)
    | _, _ => none

/-- The S3 object key built in `DataUploader.upload_image_to_s3`
(`uploader.py` line 78): the f-string interpolation of the category value
and the image-name value. -/
def s3_key (category image_name : Value) : String :=
  pyStr category ++ "/" ++ pyStr image_name

/-- External-world oracles for one run: per-iteration outcome of the
DynamoDB `put_item` call, per-iteration outcome of the S3 `upload_file`
call, filesystem existence, and the per-iteration UTC timestamp. -/
structure Env where
  dbOk : Nat → Bool
  s3Ok : Nat → Bool
  fsExists : String → Bool
  tsAt : Nat → String

/-- Store interactions performed by the importer, in order.  `dbPut` is the
`put_item` call of `Dbase.add_item` with the converted item; `imgCall` is
an invocation of `upload_image_to_s3` (an image-upload attempt); `s3Put`
is the actual `upload_file` call to S3. -/
inductive Event where
  | dbPut (item : List (String × Attr)) (ok : Bool)
  | imgCall (path : String) (ok : Bool)
  | s3Put (path : String) (bucket : String) (key : String) (ok : Bool)

/-- The five counters of `bulk_upload_products` (`uploader.py` 154-159). -/
structure RunStats where
  db_success : Nat
  db_failure : Nat
  image_success : Nat
  image_failure : Nat
  default_image_count : Nat

def RunStats.zero : RunStats := ⟨0, 0, 0, 0, 0⟩

def RunStats.add (a b : RunStats) : RunStats :=
  ⟨a.db_success + b.db_success, a.db_failure + b.db_failure,
   a.image_success + b.image_success, a.image_failure + b.image_failure,
   a.default_image_count + b.default_image_count⟩

/-- `DataUploader.upload_image_to_s3` (`uploader.py` lines 56-99) for
iteration `i`: returns the boolean result and the S3 calls made.  The
missing-file and missing/falsy-image-name branches return `False` before
any S3 call; `ClientError` from `upload_file` is the `env.s3Ok i = false`
case, already converted to `False` by the handler in the source. -/
def upload_image_to_s3 (env : Env) (i : Nat) (image_path : String)
    (product : Record) (bucket : String) : Bool × List Event :=
  if env.fsExists image_path = false then
    (false, [])
  else
    let category := pyGetD product "category" (.VStr "uncategorized")
    match pyGet product "image" with
    | none => (false, [])
    | some image_name =>
      if pyTruthy image_name = false then
        (false, [])
      else
        let key := s3_key category image_name
        (env.s3Ok i, [.s3Put image_path bucket key (env.s3Ok i)])

/-- Configuration assembled by `DataUploader._load_config`. -/
structure Config where
  data_path : String
  image_path : String
  s3_bucket : String

/-- Result of one iteration of the loop of `bulk_upload_products`:
counter increments, the store events performed, and the final in-memory
state of the record. -/
structure StepOut where
  stats : RunStats
  events : List Event
  final : Record

/-- One iteration of the loop of `bulk_upload_products` (`uploader.py`
lines 162-182) on the record at position `i` of the window: stamp
`created_at`, write to DynamoDB, and on success resolve the image path,
substitute the default image name when used, and attempt the image upload.
`none` models an exception escaping the iteration (non-string image or
category field), which the enclosing handler turns into `sys.exit(1)`. -/
def processRecord (cfg : Config) (env : Env) (i : Nat) (product0 : Record) :
    Option StepOut :=
  let product := pySet product0 "created_at" (.VStr (env.tsAt i))
  if env.dbOk i then
    match get_image_path product cfg.image_path default_image env.fsExists with
    | none => none
    | some (image_file_path, is_default) =>
      let product1 := if is_default then pySet product "image" (.VStr default_image) else product
      let up := upload_image_to_s3 env i image_file_path product1 cfg.s3_bucket
      some
        { stats :=
            ⟨1, 0, if up.1 then 1 else 0, if up.1 then 0 else 1,
             if is_default then 1 else 0⟩,
          events := .dbPut (convertRecord product) true :: .imgCall image_file_path up.1 :: up.2,
          final := product1 }
  else
    some
      { stats := ⟨0, 1, 0, 0, 0⟩,
        events := [.dbPut (convertRecord product) false],
        final := product }

/-- Accumulated result of the whole loop. -/
structure LoopOut where
  stats : RunStats
  events : List Event
  finals : List Record

/-- The loop of `bulk_upload_products` over the selected window, starting
at iteration index `i`. -/
def runLoop (cfg : Config) (env : Env) (i : Nat) (window : List Record) :
    Option LoopOut :=
  match window with
  | [] => some ⟨RunStats.zero, [], []⟩
  | p :: rest =>
    match processRecord cfg env i p with
    | none => none
    | some st =>
      match runLoop cfg env (i + 1) rest with
      | none => none
      | some acc => some ⟨st.stats.add acc.stats, st.events ++ acc.events, st.final :: acc.finals⟩

/-- How the input document was obtained: the file was missing
(`FileNotFoundError`), it failed to parse (`yaml.YAMLError`), or it parsed
to `None` (empty document) or to a list of records. -/
inductive LoadResult where
  | notFound
  | malformed
  | parsed (doc : Option (List Record))

/-- Outcome of `bulk_upload_products`: `fatal` is `sys.exit(1)`; `early`
is the `return` after "No products found in YAML file"; `done` carries the
loop result and the window length (`len(products_subset)`). -/
inductive RunOutcome where
  | fatal
  | early
  | done (out : LoopOut) (n : Nat)

/-- `DataUploader.bulk_upload_products` (`uploader.py` lines 124-203),
with file reading and parsing abstracted into `load`. -/
def bulk_upload_products (cfg : Config) (env : Env) (load : LoadResult)
    (start : Nat) (count : Option Nat) : RunOutcome :=
  match load with
  | .notFound => .fatal
  | .malformed => .fatal
  | .parsed doc =>
    let products := doc.getD []
    if products.isEmpty then .early
    else
      let window := selectWindow products start count
      match runLoop cfg env 0 window with
      | none => .fatal
      | some out => .done out window.length

/-- Store events performed by a run. -/
def RunOutcome.events : RunOutcome → List Event
  | .done out _ => out.events
  | _ => []

/-- Final counters of a run. -/
def RunOutcome.stats : RunOutcome → RunStats
  | .done out _ => out.stats
  | _ => RunStats.zero

/-- `DataUploader._load_config` (`uploader.py` lines 29-53): environment
variables with defaults; a missing or empty `S3_BUCKET` raises
`ValueError` (modelled as `none`). -/
def load_config (data_path_env image_path_env s3_bucket_env : Option String) :
    Option Config :=
  let data_path := data_path_env.getD "./data"
  let image_path := image_path_env.getD "./data/images"
  match s3_bucket_env with
  | none => none
  | some b => if b = "" then none else some ⟨data_path, image_path, b⟩

/-- Process exit code of `main` (`uploader.py` lines 206-230): the
`ValueError` from configuration loading exits 1; `sys.exit(1)` inside
`bulk_upload_products` exits 1; otherwise the process ends with 0. -/
def mainExit (data_path_env image_path_env s3_bucket_env : Option String)
    (env : Env) (load : LoadResult) (start : Nat) (count : Option Nat) : Nat :=
  match load_config data_path_env image_path_env s3_bucket_env with
  | none => 1
  | some cfg =>
    match bulk_upload_products cfg env load start count with
    | .fatal => 1
    | _ => 0

/-- Is an event an invocation of `upload_image_to_s3`? -/
def isImgCall : Event → Bool
  | .imgCall _ _ => true
  | _ => false

/-- Number of image-upload attempts in a trace. -/
def countImgCalls (events : List Event) : Nat :=
  (events.filter isImgCall).length

theorem countImgCalls_append (a b : List Event) :
    countImgCalls (a ++ b) = countImgCalls a + countImgCalls b := by
  simp [countImgCalls, List.filter_append]

theorem countImgCalls_cons (e : Event) (l : List Event) :
    countImgCalls (e :: l) = (if isImgCall e then 1 else 0) + countImgCalls l := by
  cases he : isImgCall e <;> simp [countImgCalls, List.filter_cons, he, Nat.add_comm]

theorem pyGet_pySet (r : Record) (k k' : String) (v : Value) :
    pyGet (pySet r k v) k' = if k = k' then some v else pyGet r k' := by
  induction r with
  | nil =>
    by_cases h : k = k' <;> simp [pySet, pyGet, h]
  | cons kv rest ih =>
    obtain ⟨k0, v0⟩ := kv
    by_cases h0 : k0 = k
    · subst h0
      by_cases h : k0 = k' <;> simp [pySet, pyGet, h]
    · by_cases h : k0 = k' <;> by_cases h2 : k = k' <;>
        simp_all [pySet, pyGet]

theorem upload_no_imgCall (env : Env) (i : Nat) (p : String) (r : Record)
    (bkt : String) : countImgCalls (upload_image_to_s3 env i p r bkt).2 = 0 := by
  unfold upload_image_to_s3
  cases hf : env.fsExists p with
  | false => simp [countImgCalls]
  | true =>
    simp only [hf]
    cases hg : pyGet r "image" with
    | none => simp [countImgCalls]
    | some img =>
      cases ht : pyTruthy img <;>
        simp [countImgCalls, isImgCall, ht]

theorem processRecord_counts (cfg : Config) (env : Env) (i : Nat) (r : Record)
    (st : StepOut) (h : processRecord cfg env i r = some st) :
    st.stats.db_success + st.stats.db_failure = 1 ∧
    st.stats.image_success + st.stats.image_failure = st.stats.db_success ∧
    countImgCalls st.events = st.stats.db_success := by
  unfold processRecord at h
  cases hdb : env.dbOk i with
  | false =>
    simp only [hdb, Bool.false_eq_true, if_false] at h
    obtain rfl : _ = st := Option.some.inj h
    simp [countImgCalls, isImgCall]
  | true =>
    simp only [hdb, if_true] at h
    cases hg : get_image_path (pySet r "created_at" (.VStr (env.tsAt i)))
        cfg.image_path default_image env.fsExists with
    | none => rw [hg] at h; exact absurd h (by simp)
    | some pb =>
      obtain ⟨path, isdef⟩ := pb
      rw [hg] at h
      simp only [] at h
      obtain rfl : _ = st := Option.some.inj h
      cases hu : (upload_image_to_s3 env i path
          (if isdef then
            pySet (pySet r "created_at" (.VStr (env.tsAt i))) "image" (.VStr default_image)
          else pySet r "created_at" (.VStr (env.tsAt i))) cfg.s3_bucket).1 <;>
        simp [hu, countImgCalls_cons, isImgCall, upload_no_imgCall]

theorem runLoop_counts (cfg : Config) (env : Env) :
    ∀ (window : List Record) (i : Nat) (out : LoopOut),
      runLoop cfg env i window = some out →
      out.stats.db_success + out.stats.db_failure = window.length ∧
      out.stats.image_success + out.stats.image_failure = out.stats.db_success ∧
      countImgCalls out.events = out.stats.db_success ∧
      out.finals.length = window.length := by
  intro window
  induction window with
  | nil =>
    intro i out h
    obtain rfl : _ = out := Option.some.inj h
    simp [RunStats.zero, countImgCalls]
  | cons p rest ih =>
    intro i out h
    unfold runLoop at h
    cases hp : processRecord cfg env i p with
    | none => rw [hp] at h; exact absurd h (by simp)
    | some st =>
      rw [hp] at h
      cases hr : runLoop cfg env (i + 1) rest with
      | none => rw [hr] at h; exact absurd h (by simp)
      | some acc =>
        rw [hr] at h
        obtain rfl : _ = out := Option.some.inj h
        obtain ⟨a1, a2, a3⟩ := processRecord_counts cfg env i p st hp
        obtain ⟨b1, b2, b3, b4⟩ := ih (i + 1) acc hr
        refine ⟨?_, ?_, ?_, ?_⟩ <;>
          simp [RunStats.add, countImgCalls_append, a3, b3] <;> omega

theorem get_image_path_noImage (r : Record) (base d : String) (fs : String → Bool)
    (h : pyContains r "image" = false) :
    get_image_path r base d fs = some (osJoin2 base d, true) := by
  simp [get_image_path, h]

theorem get_image_path_some (r : Record) (base d : String) (fs : String → Bool)
    (c img : String)
    (hcat : pyGetD r "category" (.VStr "uncategorized") = .VStr c)
    (himg : pyGet r "image" = some (.VStr img)) :
    get_image_path r base d fs =
      (if fs (osJoin3 base c img) = false then some (osJoin2 base d, true)
       else some (osJoin3 base c img, false)) := by
  have hc : pyContains r "image" = true := by simp [pyContains, himg]
  simp [get_image_path, hc, hcat, himg]

/-- What one loop iteration may do to the in-memory record: every field
other than `created_at` and `image` is untouched; `image` is either
untouched or overwritten with the default image filename; `created_at`
holds a string stamped by the iteration. -/
def FrameRel (orig fin : Record) : Prop :=
  (∀ k, k ≠ "created_at" → k ≠ "image" → pyGet fin k = pyGet orig k) ∧
  (pyGet fin "image" = pyGet orig "image" ∨
    pyGet fin "image" = some (.VStr default_image)) ∧
  (∃ ts, pyGet fin "created_at" = some (.VStr ts))

theorem processRecord_frame (cfg : Config) (env : Env) (i : Nat) (r : Record)
    (st : StepOut) (h : processRecord cfg env i r = some st) :
    FrameRel r st.final := by
  have hstamp : ∀ k, k ≠ "created_at" →
      pyGet (pySet r "created_at" (.VStr (env.tsAt i))) k = pyGet r k := by
    intro k hk
    rw [pyGet_pySet, if_neg (Ne.symm hk)]
  have hca : pyGet (pySet r "created_at" (.VStr (env.tsAt i))) "created_at" =
      some (.VStr (env.tsAt i)) := by
    rw [pyGet_pySet, if_pos rfl]
  unfold processRecord at h
  cases hdb : env.dbOk i with
  | false =>
    simp only [hdb, Bool.false_eq_true, if_false] at h
    obtain rfl : _ = st := Option.some.inj h
    exact ⟨fun k hk _ => hstamp k hk,
      Or.inl (hstamp "image" (by decide)),
      ⟨env.tsAt i, hca⟩⟩
  | true =>
    simp only [hdb, if_true] at h
    cases hg : get_image_path (pySet r "created_at" (.VStr (env.tsAt i)))
        cfg.image_path default_image env.fsExists with
    | none => rw [hg] at h; exact absurd h (by simp)
    | some pb =>
      obtain ⟨path, isdef⟩ := pb
      rw [hg] at h
      simp only [] at h
      obtain rfl : _ = st := Option.some.inj h
      cases isdef with
      | false =>
        exact ⟨fun k hk _ => hstamp k hk,
          Or.inl (hstamp "image" (by decide)),
          ⟨env.tsAt i, hca⟩⟩
      | true =>
        refine ⟨fun k hk hk2 => ?_, Or.inr ?_, ⟨env.tsAt i, ?_⟩⟩
        · have hk2s : "image" ≠ k := Ne.symm hk2
          simp [pyGet_pySet, hk2s, hstamp k hk]
        · simp [pyGet_pySet]
        · simp [pyGet_pySet, hca]

theorem runLoop_frame (cfg : Config) (env : Env) :
    ∀ (window : List Record) (i : Nat) (out : LoopOut),
      runLoop cfg env i window = some out →
      List.Forall₂ FrameRel window out.finals := by
  intro window
  induction window with
  | nil =>
    intro i out h
    obtain rfl : _ = out := Option.some.inj h
    exact List.Forall₂.nil
  | cons p rest ih =>
    intro i out h
    unfold runLoop at h
    cases hp : processRecord cfg env i p with
    | none => rw [hp] at h; exact absurd h (by simp)
    | some st =>
      rw [hp] at h
      cases hr : runLoop cfg env (i + 1) rest with
      | none => rw [hr] at h; exact absurd h (by simp)
      | some acc =>
        rw [hr] at h
        obtain rfl : _ = out := Option.some.inj h
        exact List.Forall₂.cons (processRecord_frame cfg env i p st hp) (ih (i + 1) acc hr)

/-- A record whose `image` and `category` fields, when present, hold
strings.  On such records no iteration of the loop raises: `os.path.join`
receives only string components. -/
def WellFormedRec (r : Record) : Prop :=
  (∀ v, pyGet r "image" = some v → ∃ s, v = Value.VStr s) ∧
  (∀ v, pyGet r "category" = some v → ∃ s, v = Value.VStr s)

theorem get_image_path_total (r : Record) (base d : String) (fs : String → Bool)
    (hw : (∀ v, pyGet r "image" = some v → ∃ s, v = Value.VStr s) ∧
          (∀ v, pyGet r "category" = some v → ∃ s, v = Value.VStr s)) :
    ∃ pb, get_image_path r base d fs = some pb := by
  cases hc : pyContains r "image" with
  | false => exact ⟨_, get_image_path_noImage r base d fs hc⟩
  | true =>
    obtain ⟨v, hv⟩ := Option.isSome_iff_exists.mp hc
    obtain ⟨img, rfl⟩ := hw.1 v hv
    have hcat : ∃ c, pyGetD r "category" (.VStr "uncategorized") = .VStr c := by
      cases hg : pyGet r "category" with
      | none => exact ⟨"uncategorized", by simp [pyGetD, hg]⟩
      | some w =>
        obtain ⟨c, rfl⟩ := hw.2 w hg
        exact ⟨c, by simp [pyGetD, hg]⟩
    obtain ⟨c, hcat⟩ := hcat
    rw [get_image_path_some r base d fs c img hcat hv]
    cases fs (osJoin3 base c img) <;> simp

theorem pySet_preserves_wf (r : Record) (ts : String)
    (hw : WellFormedRec r) :
    WellFormedRec (pySet r "created_at" (.VStr ts)) := by
  constructor
  · intro v hv
    rw [pyGet_pySet, if_neg (by decide)] at hv
    exact hw.1 v hv
  · intro v hv
    rw [pyGet_pySet, if_neg (by decide)] at hv
    exact hw.2 v hv

theorem processRecord_total (cfg : Config) (env : Env) (i : Nat) (r : Record)
    (hw : WellFormedRec r) : ∃ st, processRecord cfg env i r = some st := by
  unfold processRecord
  cases hdb : env.dbOk i with
  | false =>
    simp only [hdb, Bool.false_eq_true, if_false]
    exact ⟨_, rfl⟩
  | true =>
    simp only [if_true]
    obtain ⟨pb, hpb⟩ := get_image_path_total
      (pySet r "created_at" (.VStr (env.tsAt i))) cfg.image_path default_image
      env.fsExists (pySet_preserves_wf r (env.tsAt i) hw)
    rw [hpb]
    exact ⟨_, rfl⟩

theorem runLoop_total (cfg : Config) (env : Env) :
    ∀ (window : List Record) (i : Nat),
      (∀ r ∈ window, WellFormedRec r) →
      ∃ out, runLoop cfg env i window = some out := by
  intro window
  induction window with
  | nil => intro i _; exact ⟨_, rfl⟩
  | cons p rest ih =>
    intro i hw
    obtain ⟨st, hst⟩ := processRecord_total cfg env i p (hw p (by simp))
    obtain ⟨acc, hacc⟩ := ih (i + 1) (fun r hr => hw r (by simp [hr]))
    exact ⟨⟨st.stats.add acc.stats, st.events ++ acc.events, st.final :: acc.finals⟩,
      by unfold runLoop; rw [hst, hacc]⟩

/-- Concrete fixtures for witnesses. -/
def cfg0 : Config := ⟨"./data", "./data/images", "bucket"⟩

/-- Run environment where every store call succeeds and no image file
exists on disk. -/
def env0 : Env :=
  ⟨fun _ => true, fun _ => true, fun _ => false, fun _ => "2024-01-01T00:00:00"⟩

/-- Run environment where every record-store write fails. -/
def envFail : Env :=
  ⟨fun _ => false, fun _ => true, fun _ => true, fun _ => "2024-01-01T00:00:00"⟩

/-- A minimal record with only an identifier. -/
def rec0 : Record := [("id", Value.VStr "p1")]

/-- Claim C1: the write-record conversion maps each field value by runtime
type, and in particular maps booleans to the tagged-bool form.  The code
does the former for strings, numbers, lists, mappings, null and other
values, but NOT the latter: in Python `bool` is a subclass of `int`, so
`isinstance(value, (int, float))` captures booleans before the boolean
branch is reached, and a boolean is written as the tagged-number-as-string
of `str(value)` (`N "True"` / `N "False"`); the tagged-bool branch of the
source is unreachable. -/
theorem C1_bool_reaches_numeric_branch :
    convert_to_dynamodb_format (.VBool true) = .N "True" ∧
    convert_to_dynamodb_format (.VBool false) = .N "False" ∧
    convert_to_dynamodb_format (.VBool true) ≠ .BOOL true ∧
    convert_to_dynamodb_format (.VStr "x") = .S "x" ∧
    convert_to_dynamodb_format (.VInt 42) = .N "42" ∧
    convert_to_dynamodb_format .VNone = .NULL ∧
    convert_to_dynamodb_format (.VList [.VInt 1, .VStr "a"]) = .L [.N "1", .S "a"] ∧
    convert_to_dynamodb_format (.VDict [("p", .VInt 2)]) = .M [("p", .N "2")] ∧
    convert_to_dynamodb_format (.VOther "obj") = .S "obj" :=
  ⟨rfl, rfl, fun h => Attr.noConfusion h, rfl, rfl, rfl, rfl, rfl, rfl⟩

/-- Claim C3 (counterexample): a record whose field values are scalars does
not always round-trip.  For the numeric field value 5 the write side
produces the tagged number-as-string and the read side returns the string
"5", not the number 5. -/
theorem C3_numeric_roundtrip_fails :
    decodeRecord (convertRecord [("price", Value.VInt 5)]) = [("price", Value.VStr "5")] ∧
    Value.VStr "5" ≠ Value.VInt 5 :=
  ⟨rfl, fun h => Value.noConfusion h⟩

/-- Claim C3 (amended): converting a record whose field values are all
strings to tagged-value format and decoding it back reconstructs the
record exactly; a numeric value is reconstructed as its decimal string
form and a boolean as its Python string form, not as the original
scalar. -/
theorem C3_roundtrip_strings (r : Record)
    (h : ∀ kv ∈ r, ∃ s, kv.2 = Value.VStr s) :
    decodeRecord (convertRecord r) = r ∧
    (∀ n : Int, decode_attr (convert_to_dynamodb_format (.VInt n)) = .VStr (toString n)) ∧
    (∀ b : Bool, decode_attr (convert_to_dynamodb_format (.VBool b)) = .VStr (pyStrBool b)) := by
  refine ⟨?_, fun n => rfl, fun b => rfl⟩
  induction r with
  | nil => rfl
  | cons kv rest ih =>
    obtain ⟨k, v⟩ := kv
    obtain ⟨s, hs⟩ := h (k, v) (by simp)
    simp only [] at hs
    subst hs
    have hrest := ih (fun kv hkv => h kv (by simp [hkv]))
    unfold convertRecord convertKVs decodeRecord
    rw [List.map_cons]
    unfold convertRecord decodeRecord at hrest
    rw [hrest]
    rfl

/-- Witness for C3: a concrete all-string record round-trips. -/
theorem C3_roundtrip_strings_witness :
    decodeRecord (convertRecord [("name", Value.VStr "x"), ("id", Value.VStr "1")]) =
      [("name", Value.VStr "x"), ("id", Value.VStr "1")] :=
  (C3_roundtrip_strings [("name", Value.VStr "x"), ("id", Value.VStr "1")]
    (by
      intro kv hkv
      simp only [List.mem_cons, List.mem_singleton] at hkv
      rcases hkv with h | h | h
      · exact ⟨"x", by rw [h]⟩
      · exact ⟨"1", by rw [h]⟩
      · exact absurd h (by simp))).1

/-- Claim C5: the window selection is a pure slice with clamping: start 0
with omitted count returns the whole batch; a start at or past the end
returns the empty list; an omitted count means to the end; an end index
past the length is clamped, so over-requesting truncates. -/
theorem C5_selectWindow_spec :
    (∀ (batch : List Record), selectWindow batch 0 none = batch) ∧
    (∀ (batch : List Record) (start : Nat) (count : Option Nat),
      batch.length ≤ start → selectWindow batch start count = []) ∧
    (∀ (batch : List Record) (start : Nat),
      selectWindow batch start none = batch.drop start) ∧
    (∀ (batch : List Record) (start cnt : Nat),
      batch.length ≤ start + cnt →
      selectWindow batch start (some cnt) = batch.drop start) := by
  have hdropall : ∀ (batch : List Record) (start : Nat),
      (batch.drop start).take (batch.length - start) = batch.drop start := by
    intro batch start
    apply List.take_of_length_le
    simp
  refine ⟨?_, ?_, ?_, ?_⟩
  · intro batch
    simp [selectWindow]
  · intro batch start count h
    have hnil : batch.drop start = [] := List.drop_eq_nil_of_le h
    simp [selectWindow, hnil]
  · intro batch start
    simp [selectWindow, hdropall]
  · intro batch start cnt h
    have hmin : min (start + cnt) batch.length = batch.length := min_eq_right h
    simp [selectWindow, hmin, hdropall]

/-- Witness for C5 at concrete windows. -/
theorem C5_selectWindow_spec_witness :
    selectWindow [rec0] 5 none = [] ∧
    selectWindow [rec0] 0 (some 7) = [rec0].drop 0 :=
  ⟨C5_selectWindow_spec.2.1 [rec0] 5 none (by decide),
   C5_selectWindow_spec.2.2.2 [rec0] 0 7 (by decide)⟩

/-- Claim C2: for a record whose record-store write fails, the loop body
increments the record-write failure counter by exactly one, leaves the
image counters untouched, performs no image-path resolution, default
substitution, or image-upload attempt (its only store event is the failed
write, and its only record mutation the timestamp); and over any window
the number of image-upload attempts equals the number of successful
record writes. -/
theorem C2_write_failure_short_circuit :
    (∀ (cfg : Config) (env : Env) (i : Nat) (r : Record),
      env.dbOk i = false →
      processRecord cfg env i r =
        some ⟨⟨0, 1, 0, 0, 0⟩,
          [.dbPut (convertRecord (pySet r "created_at" (.VStr (env.tsAt i)))) false],
          pySet r "created_at" (.VStr (env.tsAt i))⟩) ∧
    (∀ (cfg : Config) (env : Env) (i : Nat) (window : List Record) (out : LoopOut),
      runLoop cfg env i window = some out →
      countImgCalls out.events = out.stats.db_success) := by
  constructor
  · intro cfg env i r h
    unfold processRecord
    simp [h]
  · intro cfg env i window out h
    exact (runLoop_counts cfg env window i out h).2.2.1

/-- Witness for C2: a concrete failed write short-circuits. -/
theorem C2_write_failure_short_circuit_witness :
    processRecord cfg0 envFail 0 rec0 =
      some ⟨⟨0, 1, 0, 0, 0⟩,
        [.dbPut (convertRecord (pySet rec0 "created_at" (.VStr (envFail.tsAt 0)))) false],
        pySet rec0 "created_at" (.VStr (envFail.tsAt 0))⟩ :=
  C2_write_failure_short_circuit.1 cfg0 envFail 0 rec0 rfl

/-- Claim C4 (counterexample): the timestamp is not the only in-memory
mutation.  For a record with no image field and a successful write, the
run also overwrites the image field with the default image filename. -/
theorem C4_image_field_also_mutated :
    (processRecord cfg0 env0 0 rec0).map (fun st => pyGet st.final "image") =
      some (some (Value.VStr "product_image_coming_soon.png")) ∧
    pyGet rec0 "image" = none :=
  ⟨rfl, rfl⟩

/-- Claim C4 (amended): for every record processed by the run, the only
in-memory mutations are stamping the created_at timestamp and, when the
default image is used after a successful write, overwriting the image
field with the default image filename; every other field is unchanged. -/
theorem C4_frame_amended (cfg : Config) (env : Env) (i : Nat)
    (window : List Record) (out : LoopOut)
    (h : runLoop cfg env i window = some out) :
    List.Forall₂ FrameRel window out.finals :=
  runLoop_frame cfg env window i out h

/-- Witness for C4 on a concrete one-record run. -/
theorem C4_frame_amended_witness :
    List.Forall₂ FrameRel [rec0]
      (LoopOut.mk ⟨0, 1, 0, 0, 0⟩
        [.dbPut (convertRecord (pySet rec0 "created_at" (.VStr "2024-01-01T00:00:00"))) false]
        [pySet rec0 "created_at" (.VStr "2024-01-01T00:00:00")]).finals :=
  C4_frame_amended cfg0 envFail 0 [rec0]
    (LoopOut.mk ⟨0, 1, 0, 0, 0⟩
      [.dbPut (convertRecord (pySet rec0 "created_at" (.VStr "2024-01-01T00:00:00"))) false]
      [pySet rec0 "created_at" (.VStr "2024-01-01T00:00:00")]) rfl

/-- Claim C6: image-path resolution returns the default path and
used-default true when the record has no image field or the constructed
path base/category/image does not exist on disk, and the constructed path
with used-default false when it exists. -/
theorem C6_get_image_path_spec (product : Record) (base d : String)
    (fs : String → Bool) :
    (pyContains product "image" = false →
      get_image_path product base d fs = some (osJoin2 base d, true)) ∧
    (∀ c img, pyGetD product "category" (.VStr "uncategorized") = .VStr c →
      pyGet product "image" = some (.VStr img) →
      (fs (osJoin3 base c img) = false →
        get_image_path product base d fs = some (osJoin2 base d, true)) ∧
      (fs (osJoin3 base c img) = true →
        get_image_path product base d fs = some (osJoin3 base c img, false))) := by
  refine ⟨get_image_path_noImage product base d fs, fun c img hc hi => ⟨?_, ?_⟩⟩
  · intro hf
    rw [get_image_path_some product base d fs c img hc hi, if_pos hf]
  · intro hf
    rw [get_image_path_some product base d fs c img hc hi, if_neg (by simp [hf])]

/-- Witness for C6: both the missing-image case and the existing-path
case at concrete inputs. -/
theorem C6_get_image_path_spec_witness :
    get_image_path rec0 "./images" "d.png" (fun _ => true) =
      some (osJoin2 "./images" "d.png", true) ∧
    get_image_path [("category", Value.VStr "tools"), ("image", Value.VStr "a.png")]
        "./images" "d.png" (fun _ => true) =
      some (osJoin3 "./images" "tools" "a.png", false) :=
  ⟨(C6_get_image_path_spec rec0 "./images" "d.png" (fun _ => true)).1 rfl,
   ((C6_get_image_path_spec [("category", Value.VStr "tools"), ("image", Value.VStr "a.png")]
      "./images" "d.png" (fun _ => true)).2 "tools" "a.png" rfl rfl).2 rfl⟩

/-- Claim C7: a store-reported failure is recovered locally — the run
processes every record of the window regardless of the store outcomes and
the process exits 0 — while a missing input file, malformed input, or
missing (or empty) bucket configuration exits 1. -/
theorem C7_exit_codes :
    (∀ (dp ip : Option String) (env : Env) (load : LoadResult) (s : Nat) (c : Option Nat),
      mainExit dp ip none env load s c = 1) ∧
    (∀ (dp ip : Option String) (env : Env) (load : LoadResult) (s : Nat) (c : Option Nat),
      mainExit dp ip (some "") env load s c = 1) ∧
    (∀ (dp ip b : Option String) (env : Env) (s : Nat) (c : Option Nat),
      mainExit dp ip b env .notFound s c = 1) ∧
    (∀ (dp ip b : Option String) (env : Env) (s : Nat) (c : Option Nat),
      mainExit dp ip b env .malformed s c = 1) ∧
    (∀ (dp ip : Option String) (b : String) (env : Env) (doc : Option (List Record))
        (s : Nat) (c : Option Nat),
      b ≠ "" →
      (∀ r ∈ selectWindow (doc.getD []) s c, WellFormedRec r) →
      mainExit dp ip (some b) env (.parsed doc) s c = 0) ∧
    (∀ (cfg : Config) (env : Env) (i : Nat) (window : List Record) (out : LoopOut),
      runLoop cfg env i window = some out →
      out.stats.db_success + out.stats.db_failure = window.length) := by
  refine ⟨?_, ?_, ?_, ?_, ?_, ?_⟩
  · intro dp ip env load s c
    simp [mainExit, load_config]
  · intro dp ip env load s c
    simp [mainExit, load_config]
  · intro dp ip b env s c
    unfold mainExit
    cases load_config dp ip b with
    | none => rfl
    | some cfg => rfl
  · intro dp ip b env s c
    unfold mainExit
    cases load_config dp ip b with
    | none => rfl
    | some cfg => rfl
  · intro dp ip b env doc s c hb hw
    have hcfg : load_config dp ip (some b) =
        some ⟨dp.getD "./data", ip.getD "./data/images", b⟩ := by
      simp [load_config, hb]
    have hnf : bulk_upload_products ⟨dp.getD "./data", ip.getD "./data/images", b⟩
        env (.parsed doc) s c ≠ .fatal := by
      unfold bulk_upload_products
      by_cases hemp : (doc.getD []).isEmpty = true
      · simp [hemp]
      · simp only [hemp, if_false]
        obtain ⟨out, hout⟩ := runLoop_total
          ⟨dp.getD "./data", ip.getD "./data/images", b⟩ env
          (selectWindow (doc.getD []) s c) 0 hw
        rw [hout]
        simp
    simp only [mainExit, hcfg]
  · intro cfg env i window out h
    exact (runLoop_counts cfg env window i out h).1

/-- Witness for C7: a run whose only record-store write fails still exits
with code 0. -/
theorem C7_exit_codes_witness :
    mainExit none none (some "bucket") envFail (.parsed (some [rec0])) 0 none = 0 :=
  C7_exit_codes.2.2.2.2.1 none none "bucket" envFail (some [rec0]) 0 none
    (by decide)
    (by
      intro r hr
      have hrec : r = rec0 := by
        simpa [selectWindow] using hr
      subst hrec
      exact ⟨fun v hv => by simp [rec0, pyGet] at hv,
             fun v hv => by simp [rec0, pyGet] at hv⟩)

/-- Claim C8: at the end of every completed run, record-write successes
plus record-write failures equal the number of records in the selected
window, and image-upload successes plus image-upload failures equal the
number of record-write successes. -/
theorem C8_counter_invariant (cfg : Config) (env : Env) (load : LoadResult)
    (s : Nat) (c : Option Nat) (out : LoopOut) (n : Nat)
    (h : bulk_upload_products cfg env load s c = .done out n) :
    out.stats.db_success + out.stats.db_failure = n ∧
    out.stats.image_success + out.stats.image_failure = out.stats.db_success := by
  unfold bulk_upload_products at h
  cases load with
  | notFound => exact absurd h (by simp)
  | malformed => exact absurd h (by simp)
  | parsed doc =>
    simp only [] at h
    by_cases hemp : (doc.getD []).isEmpty = true
    · rw [if_pos hemp] at h
      exact absurd h (by simp)
    · rw [if_neg hemp] at h
      cases hr : runLoop cfg env 0 (selectWindow (doc.getD []) s c) with
      | none => rw [hr] at h; exact absurd h (by simp)
      | some res =>
        rw [hr] at h
        injection h with h1 h2
        subst h1
        subst h2
        have hc := runLoop_counts cfg env (selectWindow (doc.getD []) s c) 0 res hr
        exact ⟨hc.1, hc.2.1⟩

/-- Witness for C8 on the concrete one-record run with a failing write. -/
theorem C8_counter_invariant_witness :
    (LoopOut.mk ⟨0, 1, 0, 0, 0⟩
        [.dbPut (convertRecord (pySet rec0 "created_at" (.VStr "2024-01-01T00:00:00"))) false]
        [pySet rec0 "created_at" (.VStr "2024-01-01T00:00:00")]).stats.db_success +
      (LoopOut.mk ⟨0, 1, 0, 0, 0⟩
        [.dbPut (convertRecord (pySet rec0 "created_at" (.VStr "2024-01-01T00:00:00"))) false]
        [pySet rec0 "created_at" (.VStr "2024-01-01T00:00:00")]).stats.db_failure = 1 ∧
    (LoopOut.mk ⟨0, 1, 0, 0, 0⟩
        [.dbPut (convertRecord (pySet rec0 "created_at" (.VStr "2024-01-01T00:00:00"))) false]
        [pySet rec0 "created_at" (.VStr "2024-01-01T00:00:00")]).stats.image_success +
      (LoopOut.mk ⟨0, 1, 0, 0, 0⟩
        [.dbPut (convertRecord (pySet rec0 "created_at" (.VStr "2024-01-01T00:00:00"))) false]
        [pySet rec0 "created_at" (.VStr "2024-01-01T00:00:00")]).stats.image_failure =
      (LoopOut.mk ⟨0, 1, 0, 0, 0⟩
        [.dbPut (convertRecord (pySet rec0 "created_at" (.VStr "2024-01-01T00:00:00"))) false]
        [pySet rec0 "created_at" (.VStr "2024-01-01T00:00:00")]).stats.db_success :=
  C8_counter_invariant cfg0 envFail (.parsed (some [rec0])) 0 none
    (LoopOut.mk ⟨0, 1, 0, 0, 0⟩
      [.dbPut (convertRecord (pySet rec0 "created_at" (.VStr "2024-01-01T00:00:00"))) false]
      [pySet rec0 "created_at" (.VStr "2024-01-01T00:00:00")]) 1 rfl

/-- Claim C9: for a record without a category field, both image-path
resolution and the blob-store key construction substitute the literal
category "uncategorized": the constructed path is base/uncategorized/image
and the upload key is uncategorized/(image filename). -/
theorem C9_uncategorized (product : Record) (base path bucket : String)
    (fs : String → Bool) (env : Env) (i : Nat) (img : String)
    (hcat : pyContains product "category" = false)
    (himg : pyGet product "image" = some (.VStr img)) :
    (fs (osJoin3 base "uncategorized" img) = true →
      get_image_path product base default_image fs =
        some (osJoin3 base "uncategorized" img, false)) ∧
    (img ≠ "" → env.fsExists path = true →
      upload_image_to_s3 env i path product bucket =
        (env.s3Ok i, [.s3Put path bucket ("uncategorized/" ++ img) (env.s3Ok i)])) := by
  have hgetd : pyGetD product "category" (.VStr "uncategorized") = .VStr "uncategorized" := by
    have hnone : pyGet product "category" = none := by
      cases hg : pyGet product "category" with
      | none => rfl
      | some w => rw [pyContains, hg] at hcat; simp at hcat
    simp [pyGetD, hnone]
  constructor
  · intro hf
    rw [get_image_path_some product base default_image fs "uncategorized" img hgetd himg,
      if_neg (by simp [hf])]
  · intro hne hf
    have hemp : img.isEmpty = false := by
      cases he : img.isEmpty with
      | false => rfl
      | true => exact absurd ((String.isEmpty_iff img).mp he) hne
    unfold upload_image_to_s3
    rw [hf]
    simp only [Bool.true_eq_false, if_false, hgetd, himg]
    simp [pyTruthy, hemp, s3_key, pyStr]

/-- Witness for C9 at a concrete record with no category field. -/
theorem C9_uncategorized_witness :
    get_image_path [("image", Value.VStr "a.png")] "./images" default_image (fun _ => true) =
      some (osJoin3 "./images" "uncategorized" "a.png", false) ∧
    upload_image_to_s3 envFail 0 "p.png" [("image", Value.VStr "a.png")] "bucket" =
      (envFail.s3Ok 0, [.s3Put "p.png" "bucket" ("uncategorized/" ++ "a.png") (envFail.s3Ok 0)]) :=
  ⟨(C9_uncategorized [("image", Value.VStr "a.png")] "./images" "p.png" "bucket"
      (fun _ => true) envFail 0 "a.png" rfl rfl).1 rfl,
   (C9_uncategorized [("image", Value.VStr "a.png")] "./images" "p.png" "bucket"
      (fun _ => true) envFail 0 "a.png" rfl rfl).2 (by decide) rfl⟩

/-- Claim C10: if the input parses to an empty document or an empty list
of records, the run returns immediately: no store event is performed, all
counters stay zero, and the process exits 0. -/
theorem C10_empty_input (cfg : Config) (env : Env) (s : Nat) (c : Option Nat)
    (dp ip : Option String) (b : String) (hb : b ≠ "") :
    bulk_upload_products cfg env (.parsed none) s c = .early ∧
    bulk_upload_products cfg env (.parsed (some [])) s c = .early ∧
    (bulk_upload_products cfg env (.parsed none) s c).events = [] ∧
    (bulk_upload_products cfg env (.parsed none) s c).stats = RunStats.zero ∧
    (bulk_upload_products cfg env (.parsed (some [])) s c).events = [] ∧
    (bulk_upload_products cfg env (.parsed (some [])) s c).stats = RunStats.zero ∧
    mainExit dp ip (some b) env (.parsed none) s c = 0 ∧
    mainExit dp ip (some b) env (.parsed (some [])) s c = 0 := by
  have hcfg : load_config dp ip (some b) =
      some ⟨dp.getD "./data", ip.getD "./data/images", b⟩ := by
    simp [load_config, hb]
  refine ⟨rfl, rfl, rfl, rfl, rfl, rfl, ?_, ?_⟩ <;>
    simp [mainExit, hcfg, bulk_upload_products, RunOutcome.events, RunOutcome.stats]

/-- Witness for C10 at concrete inputs. -/
theorem C10_empty_input_witness :
    bulk_upload_products cfg0 env0 (.parsed none) 0 none = .early ∧
    bulk_upload_products cfg0 env0 (.parsed (some [])) 0 none = .early ∧
    (bulk_upload_products cfg0 env0 (.parsed none) 0 none).events = [] ∧
    (bulk_upload_products cfg0 env0 (.parsed none) 0 none).stats = RunStats.zero ∧
    (bulk_upload_products cfg0 env0 (.parsed (some [])) 0 none).events = [] ∧
    (bulk_upload_products cfg0 env0 (.parsed (some [])) 0 none).stats = RunStats.zero ∧
    mainExit none none (some "bucket") env0 (.parsed none) 0 none = 0 ∧
    mainExit none none (some "bucket") env0 (.parsed (some [])) 0 none = 0 :=
  C10_empty_input cfg0 env0 0 none none none "bucket" (by decide)
